import Mathlib

/- Shallow embedding of the communication and scheduling toolkit in
src/imagepypelines/core/util.py: the framed TCP transport (class BaseTCP),
the managed worker thread (class BaseCommThread) and the task scheduler
(class EventQueue), together with the pieces of CPython runtime semantics
they rely on (struct.pack/unpack with format >Q, the heapq module,
socket.recv/close, threading.Thread.join).

Bytes are modelled as Nat values below 256, byte strings as List Nat, and
the monotonic clock as a Nat that advances while scheduled tasks run. -/

/-- Python exceptions (and two non-exception markers) that the embedded code
can produce. `taskError` stands for an arbitrary exception raised by a user
task body; `hangs` marks a call that never returns (not a Python exception);
`fuelOut` marks exhaustion of a fuel parameter on paths the source cannot
reach. -/
inductive PyError
  | typeError
  | valueError
  | nameError
  | structError
  | indexError
  | runtimeError
  | taskError
  | hangs
  | fuelOut
deriving DecidableEq

/-- The struct.pack call with format >Q: 8 bytes, unsigned big-endian.
In the source it is applied to len(msg_b), which is below 2^64. -/
def packQ (n : Nat) : List Nat :=
  [n / 2 ^ 56 % 256, n / 2 ^ 48 % 256, n / 2 ^ 40 % 256, n / 2 ^ 32 % 256,
   n / 2 ^ 24 % 256, n / 2 ^ 16 % 256, n / 2 ^ 8 % 256, n % 256]

/-- Big-endian interpretation of a byte string, as struct.unpack >Q does. -/
def beToNat (bs : List Nat) : Nat :=
  bs.foldl (fun acc b => acc * 256 + b) 0

/-- UTF-8 encoding of one character, as Python str.encode produces it. -/
def utf8Bytes (c : Char) : List Nat :=
  let n := c.toNat
  if n < 128 then [n]
  else if n < 2048 then [192 + n / 64, 128 + n % 64]
  else if n < 65536 then [224 + n / 4096, 128 + n / 64 % 64, 128 + n % 64]
  else [240 + n / 262144, 128 + n / 4096 % 64, 128 + n / 64 % 64, 128 + n % 64]

/-- Python msg.encode(): UTF-8 bytes of the message text. -/
def pyEncode (s : String) : List Nat :=
  s.data.foldr (fun c acc => utf8Bytes c ++ acc) []

namespace BaseTCP

/-- BaseTCP.write: encodes the message as UTF-8, then sendall of the packed
8-byte big-endian length followed by sendall of the payload. The value is
the byte stream that reaches the wire. -/
def write (msg : String) : List Nat :=
  packQ (pyEncode msg).length ++ pyEncode msg

/-- BaseTCP.read, over the bytes currently available from the socket.
Line 56 of the source does line = self.s.recv(8), which returns at most
8 bytes (fewer when fewer are available). Line 57 does
unpack of format >Q applied to line, which raises struct.error unless the
buffer holds exactly 8 bytes and otherwise returns a ONE-element tuple;
the source then destructures that tuple into the two names length and _,
which raises ValueError (expected 2 values, got 1). Line 58 would call the
bare name recvall, which is not defined at module scope (the function is
the static method BaseTCP.recvall), hence a NameError; that line is
unreachable because line 57 always raises first. -/
def read (available : List Nat) : Except PyError (List Nat) :=
  let line := available.take 8
  if line.length = 8 then
    match [beToNat line] with
    | [_, _] => .error .nameError
    | _ => .error .valueError
  else .error .structError

/-- BaseTCP.recvall, fuelled. `chunks` lists the byte strings the successive
c.recv calls yield (a peer that closed the connection yields empty strings
forever, modelled by running out of chunks: headD gives the empty string).
Each request is capped at min(remaining, 4096) bytes, as in the source.
The fuel bounds the number of loop iterations; `none` means the loop has
not finished within the given fuel. -/
def recvallFuel : Nat → List (List Nat) → Nat → List Nat → Option (List Nat)
  | 0, _, _, _ => none
  | fuel + 1, chunks, length, data =>
    if data.length < length then
      recvallFuel fuel chunks.tail length
        (data ++ (chunks.headD []).take (min (length - data.length) 4096))
    else some data

/-- State of the underlying Python socket object, as far as disconnect is
concerned: its address family and whether close() has been called. -/
structure PySock where
  family : Nat
  closed : Bool

/-- BaseTCP.disconnect: calls self.s.close(). Python socket.close() releases
the descriptor, marks the object closed, and is a no-op that raises nothing
when the socket is already closed. -/
def disconnect (s : PySock) : Except PyError PySock :=
  .ok { s with closed := true }

end BaseTCP

/- Task scheduler (class EventQueue). Scheduled events are the namedtuples
ScheduledEvent(event_time, task) kept in a Python list managed by
heapq.heappush and heapq.heappop. Event times are monotonic-clock readings,
modelled as Nat. A task is a Python callable; its object identity (tid)
is what Python comparison and the execution log observe. Running a task
advances the monotonic clock by its duration, may raise, and, for the inner
closure created by call_periodic, re-schedules itself after an interval. -/

/-- A scheduled callable: tid is the object identity, duration the monotonic
time its body consumes, fails whether the body raises, and reschedDelay is
some d for the inner closure of call_periodic, which after running the
wrapped body calls call_later d on itself. -/
structure PyTask where
  tid : Nat
  duration : Nat
  fails : Bool
  reschedDelay : Option Nat
deriving DecidableEq

/-- The namedtuple ScheduledEvent(event_time, task). -/
structure SEvent where
  event_time : Nat
  task : PyTask
deriving DecidableEq

def dummyTask : PyTask := ⟨0, 0, false, none⟩

def dummyEvent : SEvent := ⟨0, dummyTask⟩

/-- Python comparison a < b on two ScheduledEvent namedtuples: tuple
comparison finds the first component where the tuples differ (tested with
==) and compares it with <. Event times compare as numbers. Task callables
compare equal exactly when they are the same object; ordering two distinct
callables raises TypeError, since functions define no ordering. -/
def eventLt (a b : SEvent) : Except PyError Bool :=
  if a.event_time = b.event_time then
    if a.task.tid = b.task.tid then .ok false
    else .error .typeError
  else .ok (decide (a.event_time < b.event_time))

/-- Loop of CPython heapq siftdown: newitem is compared with the parent of
pos; while newitem is smaller, the parent moves down into pos and pos moves
to the parent slot. Returns the updated list and the final pos. The fuel
bounds the iterations; callers pass fuel above pos, which suffices since pos
strictly decreases, so the fuelOut branch is unreachable from them. -/
def siftdownLoop : Nat → Nat → SEvent → List SEvent → Nat → Except PyError (List SEvent × Nat)
  | 0, _, _, _, _ => .error .fuelOut
  | fuel + 1, startpos, newitem, heap, pos =>
    if startpos < pos then
      let parentpos := (pos - 1) / 2
      let parent := heap.getD parentpos dummyEvent
      match eventLt newitem parent with
      | .error e => .error e
      | .ok true => siftdownLoop fuel startpos newitem (heap.set pos parent) parentpos
      | .ok false => .ok (heap, pos)
    else .ok (heap, pos)

/-- CPython heapq siftdown(heap, startpos, pos): runs the loop on
newitem = heap[pos], then stores newitem at the final position. -/
def siftdown (heap : List SEvent) (startpos pos : Nat) : Except PyError (List SEvent) :=
  let newitem := heap.getD pos dummyEvent
  match siftdownLoop (pos + 1) startpos newitem heap pos with
  | .error e => .error e
  | .ok (h, p) => .ok (h.set p newitem)

/-- Loop of CPython heapq siftup: walks pos down the tree, at each step
moving the smaller child up into pos (the right child is chosen when the
left one is not smaller than it, per the comparison that can raise), until
pos has no child below endpos. Fuel above endpos suffices, since pos
strictly increases while staying below endpos. -/
def siftupLoop : Nat → Nat → List SEvent → Nat → Except PyError (List SEvent × Nat)
  | 0, _, _, _ => .error .fuelOut
  | fuel + 1, endpos, heap, pos =>
    if 2 * pos + 1 < endpos then
      if 2 * pos + 2 < endpos then
        match eventLt (heap.getD (2 * pos + 1) dummyEvent) (heap.getD (2 * pos + 2) dummyEvent) with
        | .error e => .error e
        | .ok true =>
          siftupLoop fuel endpos (heap.set pos (heap.getD (2 * pos + 1) dummyEvent)) (2 * pos + 1)
        | .ok false =>
          siftupLoop fuel endpos (heap.set pos (heap.getD (2 * pos + 2) dummyEvent)) (2 * pos + 2)
      else
        siftupLoop fuel endpos (heap.set pos (heap.getD (2 * pos + 1) dummyEvent)) (2 * pos + 1)
    else .ok (heap, pos)

/-- CPython heapq siftup(heap, pos): saves newitem = heap[pos], bubbles the
hole down with the loop, stores newitem in the final hole, then calls
siftdown with startpos = the original pos. -/
def siftup (heap : List SEvent) (pos : Nat) : Except PyError (List SEvent) :=
  let endpos := heap.length
  let newitem := heap.getD pos dummyEvent
  match siftupLoop (endpos + 1) endpos heap pos with
  | .error e => .error e
  | .ok (h, p) => siftdown (h.set p newitem) pos p

/-- heapq.heappush(heap, item): appends item and sifts it toward the root. -/
def heappush (heap : List SEvent) (item : SEvent) : Except PyError (List SEvent) :=
  let h := heap ++ [item]
  siftdown h 0 (h.length - 1)

/-- heapq.heappop(heap): pops the last element; on an empty list that raises
IndexError. If elements remain, the root is returned and the last element
is sifted down from the root. -/
def heappop (heap : List SEvent) : Except PyError (SEvent × List SEvent) :=
  match heap.getLast? with
  | none => .error .indexError
  | some lastelt =>
    let h := heap.dropLast
    if h.isEmpty then .ok (lastelt, h)
    else
      match siftup (h.set 0 lastelt) 0 with
      | .error e => .error e
      | .ok h2 => .ok (h.headD dummyEvent, h2)

/-- State of one EventQueue instance together with the world it observes:
events is the Python list self.events, now is the current reading of the
monotonic clock (it advances while task bodies run), and executed logs the
identities of the tasks invoked so far, in invocation order. -/
structure EQState where
  events : List SEvent
  now : Nat
  executed : List Nat
deriving DecidableEq

/-- Execution of event.task(): the invocation is logged, the clock advances
by the body's duration, a failing body raises, and the inner closure of
call_periodic then re-schedules itself (heappush of the same callable at
now + interval, whose comparisons may raise). -/
def runTask (st : EQState) (tk : PyTask) : EQState × Option PyError :=
  let st1 : EQState :=
    { st with executed := st.executed ++ [tk.tid], now := st.now + tk.duration }
  if tk.fails then (st1, some .taskError)
  else
    match tk.reschedDelay with
    | none => (st1, none)
    | some d =>
      match heappush st1.events ⟨st1.now + d, tk⟩ with
      | .error e => (st1, some e)
      | .ok h => ({ st1 with events := h }, none)

/-- Outcome of one run_scheduled_tasks call: the loop exited normally, or an
exception propagated out of the call (with the state at that moment), or
the modelling fuel ran out. -/
inductive SweepResult
  | done (st : EQState)
  | raised (st : EQState) (e : PyError)
  | outOfFuel
deriving DecidableEq

namespace EventQueue

/-- Loop of EventQueue.run_scheduled_tasks: while self.events is non-empty
and self.events[0].event_time <= time.monotonic() — a FRESH clock reading
at every guard evaluation, modelled by st.now — pop the minimum event and
run its task. An exception from heappop or from the task body propagates
out of the call; nothing catches it. -/
def sweepLoop : Nat → EQState → SweepResult
  | 0, _ => .outOfFuel
  | fuel + 1, st =>
    if st.events = [] then .done st
    else if (st.events.headD dummyEvent).event_time ≤ st.now then
      match heappop st.events with
      | .error e => .raised st e
      | .ok (ev, rest) =>
        match runTask { st with events := rest } ev.task with
        | (st2, none) => sweepLoop fuel st2
        | (st2, some e) => .raised st2 e
    else .done st

/-- EventQueue.run_scheduled_tasks: line 215 of the source reads
t = time.monotonic() — the binding below mirrors it and, exactly as in the
source, the captured value is never used afterwards: the loop guard
re-reads the clock on every iteration. -/
def run_scheduled_tasks (fuel : Nat) (st : EQState) : SweepResult :=
  let _t := st.now
  sweepLoop fuel st

/-- EventQueue.add_task(event_time, task): a single heappush of the
ScheduledEvent namedtuple; the task body is not invoked. -/
def add_task (st : EQState) (event_time : Nat) (tk : PyTask) : Except PyError EQState :=
  match heappush st.events ⟨event_time, tk⟩ with
  | .error e => .error e
  | .ok h => .ok { st with events := h }

/-- EventQueue.call_later(delay, task): add_task at time.monotonic() + delay. -/
def call_later (st : EQState) (delay : Nat) (tk : PyTask) : Except PyError EQState :=
  add_task st (st.now + delay) tk

/-- EventQueue.call_periodic(delay, interval, task): builds the closure
inner — run the wrapped body, then call_later interval on inner itself —
and schedules it once via call_later delay. Scheduling invokes nothing. -/
def call_periodic (st : EQState) (delay interval : Nat) (tk : PyTask) : Except PyError EQState :=
  call_later st delay { tk with reschedDelay := some interval }

end EventQueue

/- Managed worker thread (class BaseCommThread, a threading.Thread subclass).
The run() contract documented in the source: the body must be a loop
whose guard is getattr(self.t, 'running', True), checked once per
iteration. stop_thread sets self.running = False and then joins.
The context-manager methods of the source call self.run() on entry —
executing the body inline in the caller, without starting a thread — and
stop_thread on exit. -/

/-- Lifecycle states of the spec's worker state machine. -/
inductive WState
  | created
  | runningSt
  | stopped
deriving DecidableEq

/-- A BaseCommThread object: started records whether threading's start()
was ever called (the context manager never calls it), bodyDone whether the
run() body has returned, running the optional attribute read by
getattr(self.t, 'running', True), and state the spec-level lifecycle state. -/
structure BaseCommThread where
  started : Bool
  bodyDone : Bool
  running : Option Bool
  state : WState
deriving DecidableEq

namespace BaseCommThread

/-- The value of getattr(self.t, 'running', True): True while the attribute
has never been assigned. -/
def flagValue (w : BaseCommThread) : Bool :=
  w.running.getD true

/-- threading.Thread.join() for a body that follows the documented contract
(a loop checking the flag once per iteration): join raises RuntimeError if
the thread was never started; it never returns while the flag is true (the
body loops on); once the flag is false the body returns and join completes,
leaving the worker stopped. -/
def joinFlagChecking (w : BaseCommThread) : Except PyError BaseCommThread :=
  if w.started = false then .error .runtimeError
  else if flagValue w = true then .error .hangs
  else .ok { w with bodyDone := true, state := .stopped }

/-- BaseCommThread.stop_thread: logs, sets self.running = False, then
self.join(), then logs again. The flag is set BEFORE the join, so a
flag-checking body exits and the join completes. -/
def stop_thread (w : BaseCommThread) : Except PyError BaseCommThread :=
  joinFlagChecking { w with running := some false }

/-- Inline execution of a run() body of k work units that checks the flag
once per iteration, as it happens when run() is called directly in the
caller's context: each unit runs only while the flag is true. -/
def runInline : Nat → BaseCommThread → BaseCommThread
  | 0, w => { w with bodyDone := true }
  | k + 1, w => if flagValue w then runInline k w else { w with bodyDone := true }

/-- The source's enter method calls self.run() — the body executes inline,
synchronously, in the caller's execution context; threading's start() is
never invoked, so no background thread exists. -/
def enterCtx (bodyUnits : Nat) (w : BaseCommThread) : BaseCommThread :=
  runInline bodyUnits w

/-- The source's exit method calls self.stop_thread(). -/
def exitCtx (w : BaseCommThread) : Except PyError BaseCommThread :=
  stop_thread w

/-- A with-statement over the worker: enter, then (after the block) exit. -/
def scopedUse (bodyUnits : Nat) (w : BaseCommThread) : Except PyError BaseCommThread :=
  exitCtx (enterCtx bodyUnits w)

end BaseCommThread

/- Concrete tasks used to evaluate the scheduler model. -/

/-- A task due at sweep entry whose body runs for 10 units of monotonic time. -/
def tA : PyTask := ⟨1, 10, false, none⟩

/-- An instantaneous task, distinct object from tA. -/
def tB : PyTask := ⟨2, 0, false, none⟩

/-- An instantaneous task used in the equal-due-time scenario. -/
def tC : PyTask := ⟨3, 0, false, none⟩

/-- A second, distinct callable scheduled at the same due time as tC. -/
def tD : PyTask := ⟨4, 0, false, none⟩

/-- A task whose body raises. -/
def t91 : PyTask := ⟨91, 0, true, none⟩

/-- A well-behaved task scheduled after t91. -/
def t92 : PyTask := ⟨92, 0, false, none⟩

/-- A task used to exercise the scheduling helpers. -/
def tE : PyTask := ⟨6, 2, false, none⟩

/-- C1: the claim says read() after write(m) yields m for every payload text.
On the source it does not: for every message m, the receiver's read() of the
bytes write(m) put on the wire raises ValueError, because
unpack with format >Q returns a one-element tuple that line 57 destructures
into two names (and the recvall call on line 58 would be a NameError
besides). The round trip never yields m. -/
theorem c1_read_of_write_always_raises (m : String) :
    BaseTCP.read (BaseTCP.write m) = .error .valueError := rfl

/-- C2: the claim says a sweep executes only events whose due time is at
most the monotonic clock value captured at call entry. Counter-evaluation:
tasks tA (due 0, body takes 10 time units) and tB (due 5) are scheduled and
a sweep starts at monotonic time 0. The captured entry value is 0 and tB is
due at 5 > 0, yet the sweep executes both tasks (executed log [1, 2]),
because the loop guard re-reads the clock — which has advanced to 10 while
tA ran — instead of using the captured value bound to the dead variable t. -/
theorem c2_sweep_executes_event_due_after_entry :
    EventQueue.add_task ⟨[], 0, []⟩ 0 tA = .ok ⟨[⟨0, tA⟩], 0, []⟩ ∧
    EventQueue.add_task ⟨[⟨0, tA⟩], 0, []⟩ 5 tB = .ok ⟨[⟨0, tA⟩, ⟨5, tB⟩], 0, []⟩ ∧
    EventQueue.run_scheduled_tasks 10 ⟨[⟨0, tA⟩, ⟨5, tB⟩], 0, []⟩ = .done ⟨[], 10, [1, 2]⟩ :=
  ⟨rfl, rfl, rfl⟩

/-- C3: the claim says tasks scheduled with identical due times execute in
insertion order. On the source they cannot even be scheduled: after tC is
queued at due time 5, inserting the distinct callable tD at the same due
time 5 raises TypeError, because heappush compares the two namedtuples,
their equal event_time fields tie, and tuple comparison falls through to
ordering the two task callables, which Python functions do not support. -/
theorem c3_equal_due_time_insert_raises_typeerror :
    EventQueue.add_task ⟨[], 0, []⟩ 5 tC = .ok ⟨[⟨5, tC⟩], 0, []⟩ ∧
    EventQueue.add_task ⟨[⟨5, tC⟩], 0, []⟩ 5 tD = .error .typeError :=
  ⟨rfl, rfl⟩

/-- C4 counterexample: with t91 (due 0, raising body) and t92 (due 1) both
due at a sweep starting at monotonic time 5, the claim says t92 still runs.
It does not: the sweep raises out of run_scheduled_tasks after invoking
only t91 (executed log [91]) and t92 is left sitting in the queue. -/
theorem c4_failing_task_aborts_sweep_cex :
    EventQueue.run_scheduled_tasks 10 ⟨[⟨0, t91⟩, ⟨1, t92⟩], 5, []⟩ =
      .raised ⟨[⟨1, t92⟩], 5, [91]⟩ .taskError := rfl

/-- C4 amended: nothing in run_scheduled_tasks catches a task's exception,
so when the first due event's task raises, the exception propagates to the
caller and the sweep stops there: only that task was invoked, and every
remaining event stays queued unexecuted. -/
theorem c4_failing_task_aborts_sweep (st : EQState) (ev : SEvent) (rest : List SEvent)
    (fuel : Nat) (hne : st.events ≠ [])
    (hdue : (st.events.headD dummyEvent).event_time ≤ st.now)
    (hpop : heappop st.events = .ok (ev, rest))
    (hfail : ev.task.fails = true) :
    EventQueue.run_scheduled_tasks (fuel + 1) st =
      .raised ⟨rest, st.now + ev.task.duration, st.executed ++ [ev.task.tid]⟩ .taskError := by
  unfold EventQueue.run_scheduled_tasks EventQueue.sweepLoop
  rw [if_neg hne, if_pos hdue, hpop]
  unfold runTask
  simp [hfail]

/-- C4 witness: the amended theorem applied to the concrete two-event queue
of the counterexample, with each hypothesis discharged there. -/
theorem c4_failing_task_aborts_sweep_witness :
    (([⟨0, t91⟩, ⟨1, t92⟩] : List SEvent) ≠ [] ∧
     (([⟨0, t91⟩, ⟨1, t92⟩] : List SEvent).headD dummyEvent).event_time ≤ 5 ∧
     heappop [⟨0, t91⟩, ⟨1, t92⟩] = .ok (⟨0, t91⟩, [⟨1, t92⟩]) ∧
     t91.fails = true) ∧
    EventQueue.run_scheduled_tasks 10 ⟨[⟨0, t91⟩, ⟨1, t92⟩], 5, []⟩ =
      .raised ⟨[⟨1, t92⟩], 5, [91]⟩ .taskError :=
  ⟨⟨List.cons_ne_nil _ _, by decide, rfl, rfl⟩,
   c4_failing_task_aborts_sweep ⟨[⟨0, t91⟩, ⟨1, t92⟩], 5, []⟩ ⟨0, t91⟩ [⟨1, t92⟩] 9
     (List.cons_ne_nil _ _) (by decide) rfl rfl⟩

/-- C5: the claim describes read() as reading exactly 8 header bytes and
then looping over capped reads until the announced payload is collected,
decoding UTF-8. On the source, with only 3 of the frame's bytes available,
recv(8) returns those 3 bytes and unpack raises struct.error — there is no
loop to complete the header; and with the whole well-formed frame for the
two-byte payload available, read still raises ValueError at the tuple
destructuring, so the length is never used, no payload loop runs, and
nothing is ever decoded. -/
theorem c5_read_framing_diverges :
    BaseTCP.read ((packQ 2 ++ [104, 105]).take 3) = .error .structError ∧
    BaseTCP.read (packQ 2 ++ [104, 105]) = .error .valueError :=
  ⟨rfl, rfl⟩

/-- C6: the claim says an exact-length read that sees zero bytes before the
announced length is collected fails with a PeerClosed error. On the source,
once the peer has closed (every recv returns the empty byte string),
recvall of length 1 never returns at all — for every iteration budget the
loop is still spinning, since the buffer never grows — and no error of any
kind is signalled. -/
theorem c6_recvall_never_signals_peer_closed (fuel : Nat) :
    BaseTCP.recvallFuel fuel [] 1 [] = none := by
  induction fuel with
  | zero => rfl
  | succ n ih => exact ih

/-- C7: stop_thread sets self.running to False before joining, so for a
body that checks the flag once per iteration the join completes and the
worker ends in the Stopped state, for every started worker. -/
theorem c7_stop_thread_reaches_stopped (w : BaseCommThread) (h : w.started = true) :
    BaseCommThread.stop_thread w = .ok ⟨true, true, some false, .stopped⟩ := by
  unfold BaseCommThread.stop_thread BaseCommThread.joinFlagChecking BaseCommThread.flagValue
  simp [h]

/-- C7 witness: the theorem applied to a concrete started worker. -/
theorem c7_stop_thread_reaches_stopped_witness :
    (⟨true, false, none, .runningSt⟩ : BaseCommThread).started = true ∧
    BaseCommThread.stop_thread ⟨true, false, none, .runningSt⟩ =
      .ok ⟨true, true, some false, .stopped⟩ :=
  ⟨rfl, c7_stop_thread_reaches_stopped ⟨true, false, none, .runningSt⟩ rfl⟩

/-- C8: the claim says scope entry starts the body in the background and
scope exit invokes stop() exactly once. On the source, entering the scope
calls run() directly: a three-unit body executes to completion inline in
the caller while the thread is never started; and the exit handler's
stop_thread then raises RuntimeError, because joining a thread that was
never started is an error. -/
theorem c8_context_manager_runs_inline_and_exit_raises :
    (BaseCommThread.enterCtx 3 ⟨false, false, none, .created⟩).bodyDone = true ∧
    (BaseCommThread.enterCtx 3 ⟨false, false, none, .created⟩).started = false ∧
    BaseCommThread.scopedUse 3 ⟨false, false, none, .created⟩ = .error .runtimeError :=
  ⟨rfl, rfl, rfl⟩

/-- C9: disconnect closes the underlying socket and is idempotent — for
every connection the first call returns the closed socket without raising,
and a second call is a no-op that again returns the closed socket without
raising. -/
theorem c9_disconnect_idempotent (s : BaseTCP.PySock) :
    BaseTCP.disconnect s = .ok { s with closed := true } ∧
    BaseTCP.disconnect { s with closed := true } = .ok { s with closed := true } :=
  ⟨rfl, rfl⟩

/-- Helper for C10: a successful add_task leaves the execution log
untouched (it only pushes onto the heap). -/
theorem sched_ok_preserves_executed (st st' : EQState) (t : Nat) (tk : PyTask)
    (h : EventQueue.add_task st t tk = .ok st') : st'.executed = st.executed := by
  unfold EventQueue.add_task at h
  cases hp : heappush st.events ⟨t, tk⟩ with
  | error e => rw [hp] at h; cases h
  | ok hh => rw [hp] at h; cases h; rfl

/-- C10: add_task, call_later and call_periodic only insert an event into
the heap and never run the task themselves — whatever the supplied time,
including one already in the past — so the execution log is unchanged by
each of them. -/
theorem c10_scheduling_never_executes (st st1 st2 st3 : EQState) (t d i : Nat) (tk : PyTask)
    (h1 : EventQueue.add_task st t tk = .ok st1)
    (h2 : EventQueue.call_later st d tk = .ok st2)
    (h3 : EventQueue.call_periodic st d i tk = .ok st3) :
    st1.executed = st.executed ∧ st2.executed = st.executed ∧ st3.executed = st.executed :=
  ⟨sched_ok_preserves_executed st st1 t tk h1,
   sched_ok_preserves_executed st st2 (st.now + d) tk h2,
   sched_ok_preserves_executed st st3 (st.now + d) { tk with reschedDelay := some i } h3⟩

/-- C10 witness: the theorem applied to a queue at monotonic time 7 with a
nonempty execution log, scheduling tE at absolute time 0 — already in the
past — and via both helpers; the log stays [5] each time. -/
theorem c10_scheduling_never_executes_witness :
    (EventQueue.add_task ⟨[], 7, [5]⟩ 0 tE = .ok ⟨[⟨0, tE⟩], 7, [5]⟩ ∧
     EventQueue.call_later ⟨[], 7, [5]⟩ 3 tE = .ok ⟨[⟨10, tE⟩], 7, [5]⟩ ∧
     EventQueue.call_periodic ⟨[], 7, [5]⟩ 3 4 tE =
       .ok ⟨[⟨10, ⟨6, 2, false, some 4⟩⟩], 7, [5]⟩) ∧
    ((⟨[⟨0, tE⟩], 7, [5]⟩ : EQState).executed = (⟨[], 7, [5]⟩ : EQState).executed ∧
     (⟨[⟨10, tE⟩], 7, [5]⟩ : EQState).executed = (⟨[], 7, [5]⟩ : EQState).executed ∧
     (⟨[⟨10, ⟨6, 2, false, some 4⟩⟩], 7, [5]⟩ : EQState).executed =
       (⟨[], 7, [5]⟩ : EQState).executed) :=
  ⟨⟨rfl, rfl, rfl⟩,
   c10_scheduling_never_executes ⟨[], 7, [5]⟩ ⟨[⟨0, tE⟩], 7, [5]⟩ ⟨[⟨10, tE⟩], 7, [5]⟩
     ⟨[⟨10, ⟨6, 2, false, some 4⟩⟩], 7, [5]⟩ 0 3 4 tE rfl rfl rfl⟩
